import Mathlib

/-!
Verification of the asynchronous resource-open orchestrator of realm-js
(`ProgressRealmPromise` and `determineBehavior`), shallowly embedded as a
state machine.  Pure decision logic is translated directly from the source;
the settle-once promise slot (`PromiseHandle`) and the timer guard
(`TimeoutPromise`) are not part of the provided sources and are modelled
from the specification, as noted on the relevant definitions.
-/

namespace RealmOpen

/-- `OpenRealmBehaviorType` from the source; the `unrecognized` constructor
represents a configured value outside the enum (possible in the dynamically
typed source, and explicitly handled by the constructor's final `else`). -/
inductive OpenRealmBehaviorType
  | openImmediately
  | downloadBeforeOpen
  | unrecognized (value : String)
deriving DecidableEq, Repr

/-- `OpenRealmTimeOutBehavior` from the source (`throwException` /
`openLocalRealm`), plus a representation of out-of-enum values. -/
inductive OpenRealmTimeOutBehavior
  | throwException
  | openLocalRealm
  | unrecognized (value : String)
deriving DecidableEq, Repr

/-- The per-existence-case behavior record of a sync configuration. -/
structure BehaviorConfig where
  type : OpenRealmBehaviorType
  timeOut : Option Nat
  timeOutBehavior : Option OpenRealmTimeOutBehavior
deriving DecidableEq, Repr

/-- The part of the sync configuration consumed by the orchestrator. -/
structure SyncConfig where
  existingRealmFileBehavior : Option BehaviorConfig
  newRealmFileBehavior : Option BehaviorConfig
  flexible : Bool
deriving DecidableEq, Repr

/-- The part of `Configuration` consumed by the orchestrator. -/
structure Configuration where
  sync : Option SyncConfig
  openSyncedRealmLocally : Bool
deriving DecidableEq, Repr

/-- The record returned by `determineBehavior`. -/
structure OpenBehavior where
  openBehavior : OpenRealmBehaviorType
  timeOut : Option Nat
  timeOutBehavior : Option OpenRealmTimeOutBehavior
deriving DecidableEq, Repr

/-- Direct translation of `determineBehavior` (source lines 145-166). -/
def determineBehavior (config : Configuration) (realmExists : Bool) : OpenBehavior :=
  match config.sync, config.openSyncedRealmLocally with
  | none, _ => ⟨.openImmediately, none, none⟩
  | some _, true => ⟨.openImmediately, none, none⟩
  | some sync, false =>
    let configBehavior := if realmExists then sync.existingRealmFileBehavior else sync.newRealmFileBehavior
    match configBehavior with
    | some cb => ⟨cb.type, cb.timeOut, cb.timeOutBehavior⟩
    | none => ⟨.downloadBeforeOpen, some (30 * 1000), some .throwException⟩

/-- An opened resource, abstract: only its identity matters here. -/
structure RealmHandle where
  id : Nat
deriving DecidableEq, Repr

/-- A JavaScript `Error` as observed by the download rejection handler:
its `message` and its (possibly absent) `code` property, which the handler
inspects with `assert.undefined(err.code, ...)`. -/
structure JsError where
  message : String
  code : Option Nat
deriving DecidableEq, Repr

/-- The errors an attempt can be rejected with. -/
inductive Err
  | timeout (ms : Nat)
  | canceled
  | download (e : JsError)
  | validation (msg : String)
  | localOpenFailed (msg : String)
  | unexpectedOpenBehavior (b : OpenRealmBehaviorType)
  | invalidTimeOutBehavior (b : Option OpenRealmTimeOutBehavior)
deriving DecidableEq, Repr

/-- A settled outcome of the promise handle. -/
inductive Outcome
  | resolved (realm : RealmHandle)
  | rejected (err : Err)
deriving DecidableEq, Repr

/-- Status of the native async-open task handle while it is held. -/
inductive TaskStatus
  | running
  | canceled
deriving DecidableEq, Repr

/-- The two progress-callback shapes distinguished by
`isEstimateProgressNotificationCallback` in the source. -/
inductive ListenerShape
  | estimate
  | bytes
deriving DecidableEq, Repr

/-- A registered progress listener: an identity plus its shape. -/
structure Listener where
  id : Nat
  shape : ListenerShape
deriving DecidableEq, Repr

/-- `SubscriptionSetState` values relevant to the flexible-sync wait. -/
inductive SubscriptionSetState
  | pending
  | complete
  | err
  | superseded
deriving DecidableEq, Repr

/-- The mutable per-attempt state of a `ProgressRealmPromise`:
the settle-once outcome slot of the promise handle, the nullable native task
handle, whether `task.start()` was invoked, the listener set, whether a
timeout timer is armed, and the progress-notifier token. -/
structure AttemptState where
  outcome : Option Outcome
  task : Option TaskStatus
  taskStarted : Bool
  listeners : List Listener
  timerArmed : Bool
  notifierToken : Option Nat
  behavior : OpenBehavior
  cfg : Configuration
deriving DecidableEq, Repr

/-- Result of the synchronous `new indirect.Realm(config)` local open,
an external collaborator of the orchestrator. -/
inductive LocalOpenResult
  | ok (r : RealmHandle)
  | failed (msg : String)
deriving DecidableEq, Repr

/-- The external environment an attempt runs against: whether
`validateConfiguration` throws, the result of the `Realm.exists` check,
and the result of an immediate local open. -/
structure Env where
  validationError : Option String
  realmExists : Bool
  localOpen : LocalOpenResult
deriving DecidableEq, Repr

/-- Effect of `task.cancel()` reached through the handle's rejection
reaction: the held task, if any, becomes canceled (it is not released). -/
def cancelTask : Option TaskStatus → Option TaskStatus
  | some _ => some .canceled
  | none => none

/-- Modelled from the spec: `PromiseHandle` (not among the provided sources)
is a settle-once result slot; `reject` stores a rejection only when the slot
is still empty.  This definition also folds in the two reactions attached to
the handle's promise in the source: on rejection the constructor's
`this.handle.promise.catch` cancels the open task, and per the spec of the
timeout guard any settlement of the guarded promise disarms the timer. -/
def settleReject (s : AttemptState) (e : Err) : AttemptState :=
  match s.outcome with
  | some _ => s
  | none => { s with outcome := some (.rejected e), task := cancelTask s.task, timerArmed := false }

/-- Modelled from the spec: `PromiseHandle.resolve` stores a resolution only
when the slot is still empty; settlement disarms the timeout guard's timer. -/
def settleResolve (s : AttemptState) (r : RealmHandle) : AttemptState :=
  match s.outcome with
  | some _ => s
  | none => { s with outcome := some (.resolved r), timerArmed := false }

/-- `rejectAsCanceled` (source lines 351-355): reject the handle with the
canceled error. -/
def rejectAsCanceled (s : AttemptState) : AttemptState :=
  settleReject s .canceled

/-- `cancel()` (source lines 264-275): `cancelAndResetTask` releases the task
handle, the timeout guard is canceled, the notifier token is nulled (the
unregister call itself no-ops, the task having just been nulled), all
listeners are cleared, and the handle is rejected as canceled. -/
def cancelFn (s : AttemptState) : AttemptState :=
  let s1 := { s with task := none }
  let s2 := { s1 with timerArmed := false }
  let s3 := { s2 with notifierToken := none }
  let s4 := { s3 with listeners := [] }
  rejectAsCanceled s4

/-- Observable actions of the synchronous constructor body, recorded in
order, to state ordering properties. -/
inductive Effect
  | validate
  | checkExists (result : Bool)
  | createTask
  | armTimer (ms : Nat)
  | startTask
  | registerNotifier
  | resolveImmediate
deriving DecidableEq, Repr

/-- Placeholder behavior stored when the constructor fails before
`determineBehavior` runs. -/
def defaultOpenBehavior : OpenBehavior := ⟨.openImmediately, none, none⟩

/-- The synchronous part of the `ProgressRealmPromise` constructor (source
lines 196-257), returning the attempt state as it stands when the
constructor returns, together with the trace of effects it performed.
The `try`/`catch` is encoded per path: a throw reaches the catch block,
which unregisters the notifier if registered and rejects the handle. -/
def mkAttempt (cfg : Configuration) (env : Env) : AttemptState × List Effect :=
  match env.validationError with
  | some m =>
    (⟨some (.rejected (.validation m)), none, false, [], false, none, defaultOpenBehavior, cfg⟩,
     [.validate])
  | none =>
    let ex := env.realmExists
    let beh := determineBehavior cfg ex
    let tr0 : List Effect := [.validate, .checkExists ex]
    match beh.openBehavior with
    | .openImmediately =>
      match env.localOpen with
      | .ok r =>
        (⟨some (.resolved r), none, false, [], false, none, beh, cfg⟩, tr0 ++ [.resolveImmediate])
      | .failed m =>
        (⟨some (.rejected (.localOpenFailed m)), none, false, [], false, none, beh, cfg⟩, tr0)
    | .downloadBeforeOpen =>
      let tr1 := tr0 ++ [Effect.createTask]
      match beh.timeOut with
      | none =>
        (⟨none, some .running, true, [], false, some 0, beh, cfg⟩,
         tr1 ++ [.startTask, .registerNotifier])
      | some ms =>
        match beh.timeOutBehavior with
        | some .throwException =>
          (⟨none, some .running, true, [], true, some 0, beh, cfg⟩,
           tr1 ++ [.armTimer ms, .startTask, .registerNotifier])
        | some .openLocalRealm =>
          (⟨none, some .running, true, [], true, some 0, beh, cfg⟩,
           tr1 ++ [.armTimer ms, .startTask, .registerNotifier])
        | other =>
          (settleReject ⟨none, some .running, false, [], true, none, beh, cfg⟩
             (.invalidTimeOutBehavior other),
           tr1 ++ [.armTimer ms])
    | .unrecognized v =>
      (⟨some (.rejected (.unexpectedOpenBehavior (.unrecognized v))), none, false, [], false, none,
         beh, cfg⟩,
       tr0)

/-- The asynchronous settlement sources an in-flight attempt can observe. -/
inductive AttemptEvent
  | downloadSuccess (r : RealmHandle) (subsState : SubscriptionSetState)
  | downloadFailure (e : JsError)
  | timeoutFired
  | cancelCalled
deriving DecidableEq, Repr

/-- One asynchronous event processed against an attempt.
`downloadFailure` is the rejection handler of source lines 237-245: an error
carrying a `code` trips `assert.undefined(err.code, ...)`, whose throw
escapes the handler and settles nothing; the session-became-inactive message
is reclassified as cancellation; anything else rejects the handle as-is.
`timeoutFired` is the timeout guard's rejection (source lines 311-340): under
`throwException` the handle is rejected with the timeout error; under
`openLocalRealm` the task is canceled and released and the handle is resolved
with an immediate local open, whose own failure escapes the callback and
settles nothing.  `cancelCalled` is `cancel()`. -/
def step (env : Env) (s : AttemptState) : AttemptEvent → AttemptState
  | .downloadSuccess r _ => settleResolve s r
  | .downloadFailure e =>
    if e.code.isSome then s
    else if e.message = "Sync session became inactive" then rejectAsCanceled s
    else settleReject s (.download e)
  | .timeoutFired =>
    if s.timerArmed then
      let s1 := { s with timerArmed := false }
      match s1.behavior.timeOutBehavior with
      | some .throwException => settleReject s1 (.timeout (s1.behavior.timeOut.getD 0))
      | some .openLocalRealm =>
        let s2 := { s1 with task := none }
        match env.localOpen with
        | .ok r => settleResolve s2 r
        | .failed _ => s2
      | _ => s1
    else s
  | .cancelCalled => cancelFn s

/-- Steps of the download-success continuation (source lines 223-237),
recorded in order. -/
inductive SuccessStep
  | openRealm
  | waitForSubscriptions
  | resolveWith (r : RealmHandle)
deriving DecidableEq, Repr

/-- `config.sync?.flexible` as a boolean. -/
def flexibleSync (cfg : Configuration) : Bool :=
  match cfg.sync with
  | some sc => sc.flexible
  | none => false

/-- The trace of the download-success continuation: the realm is opened from
the transferred handle; when the configuration is flexible-sync and not
local-only and the subscription set is `Pending`, synchronization is awaited
before the handle is resolved. -/
def downloadSuccessTrace (cfg : Configuration) (subsState : SubscriptionSetState)
    (r : RealmHandle) : List SuccessStep :=
  if flexibleSync cfg && !cfg.openSyncedRealmLocally then
    if subsState = SubscriptionSetState.pending then
      [.openRealm, .waitForSubscriptions, .resolveWith r]
    else
      [.openRealm, .resolveWith r]
  else
    [.openRealm, .resolveWith r]

/-- A delivered progress callback invocation. -/
inductive ProgressCall
  | estimateCall (listenerId : Nat) (estimate : Rat)
  | byteCall (listenerId : Nat) (transferred transferable : Rat)
deriving DecidableEq, Repr

/-- The shape test applied at registration and at emission. -/
def isEstimateProgressNotificationCallback (l : Listener) : Bool :=
  match l.shape with
  | .estimate => true
  | .bytes => false

/-- `progress(callback)` (source lines 281-291): the callback joins the
listener set and immediately receives one synthetic call, `1.0` for the
estimate shape and `(0.0, 0.0)` for the byte shape. -/
def progressFn (s : AttemptState) (l : Listener) : AttemptState × ProgressCall :=
  let ls := if l ∈ s.listeners then s.listeners else s.listeners ++ [l]
  let s1 := { s with listeners := ls }
  if isEstimateProgressNotificationCallback l then
    (s1, .estimateCall l.id 1)
  else
    (s1, .byteCall l.id 0 0)

/-- `emitProgress` (source lines 297-308): every registered listener receives
one call, projected by its shape. -/
def emitProgress (transferred transferable estimate : Rat) (s : AttemptState) :
    List ProgressCall :=
  s.listeners.map fun l =>
    if isEstimateProgressNotificationCallback l then .estimateCall l.id estimate
    else .byteCall l.id transferred transferable

/-- The process-wide picture: a heap of attempts and the static `instances`
registry of weak references, each either a live index into the heap or
already collected. -/
structure World where
  heap : List AttemptState
  registry : List (Option Nat)
deriving DecidableEq, Repr

/-- One iteration of the `cancelAll` loop: dereference the weak reference
and, when the attempt is still live, call `cancel()` on it. -/
def applyCancelRef (h : List AttemptState) (r : Option Nat) : List AttemptState :=
  match r with
  | some i =>
    match h[i]? with
    | some a => h.set i (cancelFn a)
    | none => h
  | none => h

/-- `cancelAll()` (source lines 175-180): cancel every still-live registered
attempt, then clear the registry. -/
def cancelAllW (w : World) : World :=
  ⟨w.registry.foldl applyCancelRef w.heap, []⟩

/-- The registration step of the constructor (source lines 197-199): the new
attempt joins the heap, and a weak reference to it joins the registry exactly
when the `ALLOW_CLEAR_TEST_STATE` flag is enabled. -/
def registerAttempt (w : World) (flag : Bool) (s : AttemptState) : World :=
  if flag then ⟨w.heap ++ [s], w.registry ++ [some w.heap.length]⟩
  else ⟨w.heap ++ [s], w.registry⟩

/-- Definition following the spec's words (Open Decision Policy): immediate
open when synchronization is disabled or local-only opening is requested,
otherwise the per-existence-case configured behavior, defaulting to
download-then-open with a 30-second deadline and fail-on-timeout. -/
def specChosenBehavior : Option BehaviorConfig → OpenBehavior
  | some cb => ⟨cb.type, cb.timeOut, cb.timeOutBehavior⟩
  | none => ⟨.downloadBeforeOpen, some 30000, some .throwException⟩

/-- Definition following the spec's words (Open Decision Policy), to be
compared with `determineBehavior`. -/
def specOpenPolicy (config : Configuration) (realmExists : Bool) : OpenBehavior :=
  if config.sync = none ∨ config.openSyncedRealmLocally = true then
    ⟨.openImmediately, none, none⟩
  else
    match config.sync with
    | some sc =>
      specChosenBehavior (if realmExists then sc.existingRealmFileBehavior else sc.newRealmFileBehavior)
    | none => ⟨.openImmediately, none, none⟩

/-- A configuration with sync enabled and no per-case behavior configured. -/
def cfgDownload : Configuration := ⟨some ⟨none, none, false⟩, false⟩

/-- A typical environment: validation passes, the realm exists locally, and
an immediate local open succeeds. -/
def env0 : Env := ⟨none, true, .ok ⟨7⟩⟩

/-- The attempt `cfgDownload` produces in `env0`: downloading, default
30-second deadline armed, unsettled. -/
def attempt0 : AttemptState := (mkAttempt cfgDownload env0).1

/-- A download error carrying a `code` property. -/
def errWithCode : JsError := ⟨"boom", some 1⟩

/-- A configuration with an explicit fall-back-to-local timeout policy. -/
def cfgFallback : Configuration :=
  ⟨some ⟨some ⟨.downloadBeforeOpen, some 1000, some .openLocalRealm⟩, none, false⟩, false⟩

/-- An environment whose immediate local open fails. -/
def envLocalFail : Env := ⟨none, true, .failed "disk full"⟩

/-- The fall-back-to-local attempt in the failing-local-open environment. -/
def attemptFallback : AttemptState := (mkAttempt cfgFallback envLocalFail).1

/-- The fall-back-to-local attempt in the succeeding environment. -/
def attemptFallbackOk : AttemptState := (mkAttempt cfgFallback env0).1

/-- An estimate-shape listener. -/
def listener1 : Listener := ⟨1, .estimate⟩

/-- `attempt0` after one listener registration. -/
def attemptWithListener : AttemptState := (progressFn attempt0 listener1).1

/-- A configuration with an unrecognized timeout policy but no deadline. -/
def cfgNoDeadlineBadPolicy : Configuration :=
  ⟨some ⟨some ⟨.downloadBeforeOpen, none, some (.unrecognized "garbage")⟩, none, false⟩, false⟩

/-- A configuration with an unrecognized timeout policy and a deadline. -/
def cfgDeadlineBadPolicy : Configuration :=
  ⟨some ⟨some ⟨.downloadBeforeOpen, some 1000, some (.unrecognized "garbage")⟩, none, false⟩, false⟩

/-- A flexible-sync configuration. -/
def cfgFlexible : Configuration := ⟨some ⟨none, none, true⟩, false⟩

/-! ## Helper lemmas -/

lemma settleReject_outcome_some (s : AttemptState) (e : Err) (o : Outcome)
    (h : s.outcome = some o) : (settleReject s e).outcome = some o := by
  simp [settleReject, h]

lemma settleResolve_outcome_some (s : AttemptState) (r : RealmHandle) (o : Outcome)
    (h : s.outcome = some o) : (settleResolve s r).outcome = some o := by
  simp [settleResolve, h]

lemma cancelFn_outcome_some (s : AttemptState) (o : Outcome)
    (h : s.outcome = some o) : (cancelFn s).outcome = some o := by
  simp [cancelFn, rejectAsCanceled, settleReject, h]

lemma cancelFn_outcome_none (s : AttemptState)
    (h : s.outcome = none) : (cancelFn s).outcome = some (.rejected .canceled) := by
  simp [cancelFn, rejectAsCanceled, settleReject, h]

/-- Once the handle is settled, no later event changes the outcome. -/
lemma step_outcome_mono (env : Env) (s : AttemptState) (e : AttemptEvent) (o : Outcome)
    (h : s.outcome = some o) : (step env s e).outcome = some o := by
  cases e with
  | downloadSuccess r st => exact settleResolve_outcome_some s r o h
  | downloadFailure je =>
    by_cases hc : je.code.isSome
    · simp [step, hc, h]
    · by_cases hm : je.message = "Sync session became inactive"
      · simp [step, hc, hm, rejectAsCanceled, settleReject, h]
      · simp [step, hc, hm, settleReject, h]
  | timeoutFired =>
    by_cases ha : s.timerArmed
    · simp only [step, ha, if_true]
      cases hb : s.behavior.timeOutBehavior with
      | none => simpa [hb] using h
      | some tb =>
        cases tb with
        | throwException => simp [hb, settleReject, h]
        | openLocalRealm =>
          cases hl : env.localOpen with
          | ok r => simp [hb, hl, settleResolve, h]
          | failed m => simp [hb, hl, h]
        | unrecognized v => simpa [hb] using h
    · simp [step, ha, h]
  | cancelCalled => exact cancelFn_outcome_some s o h

/-- Once settled, a whole sequence of later events changes nothing. -/
lemma foldl_outcome_mono (env : Env) (es : List AttemptEvent) (s : AttemptState) (o : Outcome)
    (h : s.outcome = some o) : (List.foldl (step env) s es).outcome = some o := by
  induction es generalizing s with
  | nil => simpa using h
  | cons e es ih => exact ih (step env s e) (step_outcome_mono env s e o h)

/-! ## Claims -/

/-- Claim C1: for every open attempt and every sequence of settlement sources
delivered to it, exactly one final outcome is observable by every caller
awaiting the attempt's promise; it is determined by the first source that
actually settles the handle, and every later source leaves it unchanged. -/
theorem claim1_settle_once (env : Env) (s : AttemptState) (e : AttemptEvent)
    (es : List AttemptEvent) (h : ((step env s e).outcome).isSome = true) :
    (List.foldl (step env) s (e :: es)).outcome = (step env s e).outcome := by
  obtain ⟨o, ho⟩ := Option.isSome_iff_exists.mp h
  rw [List.foldl_cons, foldl_outcome_mono env es (step env s e) o ho, ho]

/-- Witness for C1 at a concrete attempt: a cancel followed by a successful
download completion settles with the cancel outcome. -/
theorem claim1_settle_once_witness :
    ((step env0 attempt0 .cancelCalled).outcome).isSome = true ∧
    (List.foldl (step env0) attempt0 [.cancelCalled, .downloadSuccess ⟨7⟩ .complete]).outcome
      = (step env0 attempt0 .cancelCalled).outcome :=
  ⟨by decide, claim1_settle_once env0 attempt0 .cancelCalled [.downloadSuccess ⟨7⟩ .complete]
    (by decide)⟩

/-- Claim C2: if `cancel()` is processed while the attempt is still
unsettled, the final outcome is the canceled error and no later event, a
successful download completion included, can change it. -/
theorem claim2_cancel_wins (env : Env) (s : AttemptState) (h : s.outcome = none)
    (es : List AttemptEvent) :
    (List.foldl (step env) (step env s .cancelCalled) es).outcome
      = some (.rejected .canceled) :=
  foldl_outcome_mono env es (step env s .cancelCalled) (.rejected .canceled)
    (cancelFn_outcome_none s h)

/-- Witness for C2: the concrete downloading attempt, canceled and then
delivered a successful completion, ends canceled. -/
theorem claim2_cancel_wins_witness :
    attempt0.outcome = none ∧
    (List.foldl (step env0) (step env0 attempt0 .cancelCalled)
        [.downloadSuccess ⟨7⟩ .complete]).outcome = some (.rejected .canceled) :=
  ⟨by decide, claim2_cancel_wins env0 attempt0 (by decide) [.downloadSuccess ⟨7⟩ .complete]⟩

/-- Counterexample to C3 as stated: a download failure whose error carries a
`code` property is not propagated to the caller — the rejection handler's
assertion throws first and the attempt is not settled by the event. -/
theorem claim3_counterexample :
    (step env0 attempt0 (.downloadFailure errWithCode)).outcome = none ∧
    (step env0 attempt0 (.downloadFailure errWithCode)).outcome
      ≠ some (.rejected (.download errWithCode)) := by
  constructor
  · decide
  · decide

/-- Claim C3, amended: for failures without a `code` property, the attempt
rejects as canceled exactly when the message is the session-became-inactive
signature and otherwise propagates the error as-is; a failure carrying a
`code` trips the handler's assertion and settles nothing. -/
theorem claim3_reclassification (env : Env) (s : AttemptState) (e : JsError)
    (h : s.outcome = none) :
    (step env s (.downloadFailure e)).outcome =
      (if e.code.isSome then none
       else if e.message = "Sync session became inactive" then some (.rejected .canceled)
       else some (.rejected (.download e))) := by
  by_cases hc : e.code.isSome
  · simp [step, hc, h]
  · by_cases hm : e.message = "Sync session became inactive"
    · simp [step, hc, hm, rejectAsCanceled, settleReject, h]
    · simp [step, hc, hm, settleReject, h]

/-- Witness for the amended C3: the session-became-inactive message on the
concrete attempt yields the canceled outcome. -/
theorem claim3_reclassification_witness :
    attempt0.outcome = none ∧
    (step env0 attempt0 (.downloadFailure ⟨"Sync session became inactive", none⟩)).outcome =
      (if (Option.none (α := Nat)).isSome then none
       else if "Sync session became inactive" = "Sync session became inactive" then
         some (.rejected .canceled)
       else some (.rejected (.download ⟨"Sync session became inactive", none⟩))) :=
  ⟨by decide,
   claim3_reclassification env0 attempt0 ⟨"Sync session became inactive", none⟩ (by decide)⟩

/-- Counterexample to C4 as stated: under `FallBackToLocal`, when the
immediate local open itself fails its error does not become the attempt's
final outcome — the throw escapes the timeout callback and the attempt stays
unsettled by the timeout event. -/
theorem claim4_counterexample :
    (step envLocalFail attemptFallback .timeoutFired).outcome = none ∧
    (step envLocalFail attemptFallback .timeoutFired).outcome
      ≠ some (.rejected (.localOpenFailed "disk full")) := by
  constructor
  · decide
  · decide

/-- Claim C4, amended: when the timeout fires on an armed attempt, under
`FailOnTimeout` the timeout error is the final outcome; under
`FallBackToLocal` the download task is canceled and released and the attempt
settles with a successful immediate local open, while a failing local open
settles nothing (its error escapes the fallback callback). -/
theorem claim4_timeout_policy (env : Env) (s : AttemptState)
    (h0 : s.outcome = none) (ha : s.timerArmed = true) :
    (s.behavior.timeOutBehavior = some .throwException →
      (step env s .timeoutFired).outcome
        = some (.rejected (.timeout (s.behavior.timeOut.getD 0))))
    ∧ (s.behavior.timeOutBehavior = some .openLocalRealm →
      (step env s .timeoutFired).task = none
      ∧ (∀ r, env.localOpen = .ok r →
          (step env s .timeoutFired).outcome = some (.resolved r))
      ∧ (∀ m, env.localOpen = .failed m →
          (step env s .timeoutFired).outcome = none)) := by
  constructor
  · intro hb
    simp [step, ha, hb, settleReject, h0]
  · intro hb
    refine ⟨?_, ?_, ?_⟩
    · cases hl : env.localOpen with
      | ok r => simp [step, ha, hb, hl, settleResolve, h0]
      | failed m => simp [step, ha, hb, hl]
    · intro r hl
      simp [step, ha, hb, hl, settleResolve, h0]
    · intro m hl
      simp [step, ha, hb, hl, h0]

/-- Witness for the amended C4 at the concrete fall-back attempt with a
succeeding local open. -/
theorem claim4_timeout_policy_witness :
    attemptFallbackOk.outcome = none ∧ attemptFallbackOk.timerArmed = true ∧
    (step env0 attemptFallbackOk .timeoutFired).task = none ∧
    (step env0 attemptFallbackOk .timeoutFired).outcome = some (.resolved ⟨7⟩) :=
  ⟨by decide, by decide,
   ((claim4_timeout_policy env0 attemptFallbackOk (by decide) (by decide)).2 (by decide)).1,
   ((claim4_timeout_policy env0 attemptFallbackOk (by decide) (by decide)).2 (by decide)).2.1
     ⟨7⟩ (by decide)⟩

/-- Counterexample to C5 as stated: an attempt that settles through a
successful download keeps its registered listener, its notifier token, and
its live task handle — the success exit path does not clear the listener set,
unregister the progress subscription, or release the task. -/
theorem claim5_counterexample :
    (step env0 attemptWithListener (.downloadSuccess ⟨7⟩ .complete)).outcome
        = some (.resolved ⟨7⟩)
    ∧ (step env0 attemptWithListener (.downloadSuccess ⟨7⟩ .complete)).listeners ≠ []
    ∧ (step env0 attemptWithListener (.downloadSuccess ⟨7⟩ .complete)).notifierToken = some 0
    ∧ (step env0 attemptWithListener (.downloadSuccess ⟨7⟩ .complete)).task
        = some .running := by
  refine ⟨by decide, by decide, by decide, by decide⟩

/-- Claim C5, amended: `cancel()` releases the task handle, disarms the
timer, clears the notifier token and clears the listener set; settlement by
download success disarms the timer but leaves listeners, token and task
untouched; settlement by a code-less download failure disarms the timer and
cancels (without releasing) the task, leaving listeners and token in place. -/
theorem claim5_resource_release (env : Env) (s : AttemptState) (r : RealmHandle)
    (st : SubscriptionSetState) (e : JsError) (h0 : s.outcome = none) :
    ((step env s .cancelCalled).task = none
      ∧ (step env s .cancelCalled).timerArmed = false
      ∧ (step env s .cancelCalled).notifierToken = none
      ∧ (step env s .cancelCalled).listeners = [])
    ∧ ((step env s (.downloadSuccess r st)).timerArmed = false
      ∧ (step env s (.downloadSuccess r st)).listeners = s.listeners
      ∧ (step env s (.downloadSuccess r st)).notifierToken = s.notifierToken
      ∧ (step env s (.downloadSuccess r st)).task = s.task)
    ∧ (e.code = none →
      ((step env s (.downloadFailure e)).timerArmed = false
        ∧ (step env s (.downloadFailure e)).listeners = s.listeners
        ∧ (step env s (.downloadFailure e)).notifierToken = s.notifierToken
        ∧ (step env s (.downloadFailure e)).task = cancelTask s.task)) := by
  refine ⟨?_, ?_, ?_⟩
  · simp [step, cancelFn, rejectAsCanceled, settleReject, cancelTask, h0]
  · simp [step, settleResolve, h0]
  · intro hc
    by_cases hm : e.message = "Sync session became inactive"
    · simp [step, hc, hm, rejectAsCanceled, settleReject, h0]
    · simp [step, hc, hm, settleReject, h0]

/-- Witness for the amended C5 at the concrete attempt carrying a listener. -/
theorem claim5_resource_release_witness :
    attemptWithListener.outcome = none ∧
    ((step env0 attemptWithListener .cancelCalled).task = none
      ∧ (step env0 attemptWithListener .cancelCalled).timerArmed = false
      ∧ (step env0 attemptWithListener .cancelCalled).notifierToken = none
      ∧ (step env0 attemptWithListener .cancelCalled).listeners = []) :=
  ⟨by decide,
   (claim5_resource_release env0 attemptWithListener ⟨7⟩ .complete
     ⟨"boom", none⟩ (by decide)).1⟩

/-- Counterexample to C6 as stated: a configuration carrying an unrecognized
timeout-fallback-policy value but no deadline raises no configuration error
at all — the attempt proceeds into the asynchronous download path. -/
theorem claim6_counterexample :
    (mkAttempt cfgNoDeadlineBadPolicy env0).1.outcome = none
    ∧ (mkAttempt cfgNoDeadlineBadPolicy env0).1.taskStarted = true := by
  refine ⟨by decide, by decide⟩

/-- Claim C6, amended: an unrecognized open-behavior value always rejects the
attempt synchronously at construction, before any task is created or started;
an unrecognized (or absent) timeout-fallback-policy value rejects the attempt
synchronously at construction only when a deadline is configured, and then
before the task is started. -/
theorem claim6_config_errors (cfg : Configuration) (env : Env)
    (hv : env.validationError = none) :
    (∀ v, (determineBehavior cfg env.realmExists).openBehavior = .unrecognized v →
      ((mkAttempt cfg env).1.outcome
          = some (.rejected (.unexpectedOpenBehavior (.unrecognized v)))
        ∧ Effect.createTask ∉ (mkAttempt cfg env).2
        ∧ Effect.startTask ∉ (mkAttempt cfg env).2))
    ∧ ((determineBehavior cfg env.realmExists).openBehavior = .downloadBeforeOpen →
      ∀ ms, (determineBehavior cfg env.realmExists).timeOut = some ms →
      ((determineBehavior cfg env.realmExists).timeOutBehavior = none
        ∨ ∃ v, (determineBehavior cfg env.realmExists).timeOutBehavior
            = some (.unrecognized v)) →
      ((mkAttempt cfg env).1.outcome
          = some (.rejected
              (.invalidTimeOutBehavior (determineBehavior cfg env.realmExists).timeOutBehavior))
        ∧ Effect.startTask ∉ (mkAttempt cfg env).2
        ∧ (mkAttempt cfg env).1.taskStarted = false)) := by
  constructor
  · intro v hb
    simp [mkAttempt, hv, hb]
  · intro hb ms hms hbad
    rcases hbad with hnone | ⟨v, hsome⟩
    · simp [mkAttempt, hv, hb, hms, hnone, settleReject]
    · simp [mkAttempt, hv, hb, hms, hsome, settleReject]

/-- Witness for the amended C6: the concrete deadline-plus-bad-policy
configuration is rejected at construction before the task starts. -/
theorem claim6_config_errors_witness :
    (mkAttempt cfgDeadlineBadPolicy env0).1.outcome
        = some (.rejected (.invalidTimeOutBehavior
            (determineBehavior cfgDeadlineBadPolicy env0.realmExists).timeOutBehavior))
    ∧ Effect.startTask ∉ (mkAttempt cfgDeadlineBadPolicy env0).2
    ∧ (mkAttempt cfgDeadlineBadPolicy env0).1.taskStarted = false :=
  (claim6_config_errors cfgDeadlineBadPolicy env0 (by decide)).2 (by decide) 1000 (by decide)
    (Or.inr ⟨"garbage", by decide⟩)

/-- The constructor trace always starts with validation and the existence
check, and a created task only appears after them. -/
lemma takeWhile_checkExists (ex : Bool) (rest : List Effect) :
    ((([.validate, .checkExists ex, .createTask] : List Effect) ++ rest).takeWhile
        (fun x => x ≠ Effect.createTask)) = [.validate, .checkExists ex] := by
  simp [List.takeWhile]

/-- Claim C7: the open decision policy coincides with the spec's policy
(immediate open when sync is disabled or local-only opening is requested,
otherwise the per-existence-case configured behavior, defaulting to
download-then-open with a 30000 ms deadline and fail-on-timeout), and in the
constructor the resource-existence check is performed strictly before any
download task is created. -/
theorem claim7_open_policy :
    (∀ cfg ex, determineBehavior cfg ex = specOpenPolicy cfg ex)
    ∧ (∀ cfg env, env.validationError = none →
        Effect.createTask ∈ (mkAttempt cfg env).2 →
        Effect.checkExists env.realmExists
          ∈ ((mkAttempt cfg env).2.takeWhile (fun x => x ≠ Effect.createTask))) := by
  constructor
  · intro cfg ex
    rcases cfg with ⟨sync, lo⟩
    cases sync with
    | none => cases lo <;> rfl
    | some sc =>
      cases lo with
      | true => rfl
      | false =>
        cases ex with
        | true =>
          cases sc.existingRealmFileBehavior <;>
            simp [determineBehavior, specOpenPolicy, specChosenBehavior]
        | false =>
          cases sc.newRealmFileBehavior <;>
            simp [determineBehavior, specOpenPolicy, specChosenBehavior]
  · intro cfg env hv hmem
    revert hmem
    simp only [mkAttempt, hv]
    cases hb : (determineBehavior cfg env.realmExists).openBehavior with
    | openImmediately =>
      cases hl : env.localOpen <;> intro hmem <;> simp_all
    | downloadBeforeOpen =>
      cases hto : (determineBehavior cfg env.realmExists).timeOut with
      | none =>
        intro _
        simp only [hb, hto]
        rw [show ([Effect.validate, Effect.checkExists env.realmExists]
            ++ [Effect.createTask]) ++ [Effect.startTask, Effect.registerNotifier]
            = ([.validate, .checkExists env.realmExists, .createTask] : List Effect)
            ++ [Effect.startTask, Effect.registerNotifier] by simp]
        rw [takeWhile_checkExists]
        simp
      | some ms =>
        cases htb : (determineBehavior cfg env.realmExists).timeOutBehavior with
        | none =>
          intro _
          simp only [hb, hto, htb]
          rw [show ([Effect.validate, Effect.checkExists env.realmExists]
              ++ [Effect.createTask]) ++ [Effect.armTimer ms]
              = ([.validate, .checkExists env.realmExists, .createTask] : List Effect)
              ++ [Effect.armTimer ms] by simp]
          rw [takeWhile_checkExists]
          simp
        | some tb =>
          cases tb with
          | throwException =>
            intro _
            simp only [hb, hto, htb]
            rw [show ([Effect.validate, Effect.checkExists env.realmExists]
                ++ [Effect.createTask])
                ++ [Effect.armTimer ms, Effect.startTask, Effect.registerNotifier]
                = ([.validate, .checkExists env.realmExists, .createTask] : List Effect)
                ++ [Effect.armTimer ms, Effect.startTask, Effect.registerNotifier] by simp]
            rw [takeWhile_checkExists]
            simp
          | openLocalRealm =>
            intro _
            simp only [hb, hto, htb]
            rw [show ([Effect.validate, Effect.checkExists env.realmExists]
                ++ [Effect.createTask])
                ++ [Effect.armTimer ms, Effect.startTask, Effect.registerNotifier]
                = ([.validate, .checkExists env.realmExists, .createTask] : List Effect)
                ++ [Effect.armTimer ms, Effect.startTask, Effect.registerNotifier] by simp]
            rw [takeWhile_checkExists]
            simp
          | unrecognized v =>
            intro _
            simp only [hb, hto, htb]
            rw [show ([Effect.validate, Effect.checkExists env.realmExists]
                ++ [Effect.createTask]) ++ [Effect.armTimer ms]
                = ([.validate, .checkExists env.realmExists, .createTask] : List Effect)
                ++ [Effect.armTimer ms] by simp]
            rw [takeWhile_checkExists]
            simp
    | unrecognized v =>
      intro hmem
      simp [hb] at hmem

/-- Witness for C7's ordering part at the concrete downloading attempt. -/
theorem claim7_open_policy_witness :
    Effect.checkExists true
      ∈ ((mkAttempt cfgDownload env0).2.takeWhile (fun x => x ≠ Effect.createTask)) :=
  claim7_open_policy.2 cfgDownload env0 (by decide) (by decide)

/-- Claim C8: a listener registered through `progress()` joins the listener
set and synchronously receives one synthetic initial call — `1.0` for the
fractional-estimate shape, `(0, 0)` for the byte-count shape — and on every
emitted progress event every registered estimate-shape listener receives the
estimate while every registered byte-shape listener receives the transferred
and transferable byte counts, one call per listener. -/
theorem claim8_progress (s : AttemptState) (l : Listener) (t tf est : Rat) :
    (l.shape = .estimate → (progressFn s l).2 = .estimateCall l.id 1)
    ∧ (l.shape = .bytes → (progressFn s l).2 = .byteCall l.id 0 0)
    ∧ l ∈ (progressFn s l).1.listeners
    ∧ (emitProgress t tf est s).length = s.listeners.length
    ∧ (∀ l2, l2 ∈ s.listeners → l2.shape = .estimate →
        ProgressCall.estimateCall l2.id est ∈ emitProgress t tf est s)
    ∧ (∀ l2, l2 ∈ s.listeners → l2.shape = .bytes →
        ProgressCall.byteCall l2.id t tf ∈ emitProgress t tf est s) := by
  refine ⟨?_, ?_, ?_, ?_, ?_, ?_⟩
  · intro h
    simp [progressFn, isEstimateProgressNotificationCallback, h]
  · intro h
    simp [progressFn, isEstimateProgressNotificationCallback, h]
  · by_cases hm : l ∈ s.listeners
    · cases hsh : l.shape <;>
        simp [progressFn, isEstimateProgressNotificationCallback, hm, hsh]
    · cases hsh : l.shape <;>
        simp [progressFn, isEstimateProgressNotificationCallback, hm, hsh]
  · simp [emitProgress]
  · intro l2 hm h
    refine List.mem_map.mpr ⟨l2, hm, ?_⟩
    simp [isEstimateProgressNotificationCallback, h]
  · intro l2 hm h
    refine List.mem_map.mpr ⟨l2, hm, ?_⟩
    simp [isEstimateProgressNotificationCallback, h]

/-- Witness for C8 at the concrete attempt and a concrete emission. -/
theorem claim8_progress_witness :
    (progressFn attempt0 listener1).2 = ProgressCall.estimateCall 1 1
    ∧ listener1 ∈ (progressFn attempt0 listener1).1.listeners
    ∧ ProgressCall.estimateCall 1 ((1 : Rat) / 2)
        ∈ emitProgress 2 3 ((1 : Rat) / 2) attemptWithListener :=
  ⟨(claim8_progress attempt0 listener1 2 3 ((1 : Rat) / 2)).1 rfl,
   (claim8_progress attempt0 listener1 2 3 ((1 : Rat) / 2)).2.2.1,
   (claim8_progress attemptWithListener listener1 2 3 ((1 : Rat) / 2)).2.2.2.2.1 listener1
     (by decide) rfl⟩

/-- Claim C10: with flexible sync enabled and local-only opening not
requested, a successfully downloaded attempt whose subscription set is
`Pending` first awaits subscription synchronization and only then resolves
with the resource; the wait step strictly precedes the resolve step. -/
theorem claim10_flexible_wait (cfg : Configuration) (sc : SyncConfig)
    (r : RealmHandle) (hs : cfg.sync = some sc) (hf : sc.flexible = true)
    (hl : cfg.openSyncedRealmLocally = false) :
    downloadSuccessTrace cfg .pending r
      = [.openRealm, .waitForSubscriptions, .resolveWith r]
    ∧ ((downloadSuccessTrace cfg .pending r).takeWhile
          (fun x => x ≠ SuccessStep.resolveWith r))
        = [.openRealm, .waitForSubscriptions] := by
  have htr : downloadSuccessTrace cfg .pending r
      = [.openRealm, .waitForSubscriptions, .resolveWith r] := by
    simp [downloadSuccessTrace, flexibleSync, hs, hf, hl]
  refine ⟨htr, ?_⟩
  rw [htr]
  simp [List.takeWhile]

/-- Witness for C10 at the concrete flexible-sync configuration. -/
theorem claim10_flexible_wait_witness :
    downloadSuccessTrace cfgFlexible .pending ⟨7⟩
      = [.openRealm, .waitForSubscriptions, .resolveWith ⟨7⟩]
    ∧ ((downloadSuccessTrace cfgFlexible .pending ⟨7⟩).takeWhile
          (fun x => x ≠ SuccessStep.resolveWith ⟨7⟩))
        = [.openRealm, .waitForSubscriptions] :=
  claim10_flexible_wait cfgFlexible ⟨none, none, true⟩ ⟨7⟩ rfl rfl rfl

/-- `cancel()` is idempotent. -/
lemma cancelFn_idem (a : AttemptState) : cancelFn (cancelFn a) = cancelFn a := by
  cases h : a.outcome <;>
    simp [cancelFn, rejectAsCanceled, settleReject, cancelTask, h]

lemma applyCancelRef_get_other (h : List AttemptState) (r : Option Nat) (j : Nat)
    (hne : r ≠ some j) : (applyCancelRef h r)[j]? = h[j]? := by
  cases r with
  | none => rfl
  | some i =>
    have hij : i ≠ j := fun he => hne (by rw [he])
    simp only [applyCancelRef]
    cases hg : h[i]? with
    | none => rfl
    | some a => exact List.getElem?_set_ne hij

lemma applyCancelRef_get_self (h : List AttemptState) (i : Nat) (a : AttemptState)
    (hg : h[i]? = some a) : (applyCancelRef h (some i))[i]? = some (cancelFn a) := by
  simp only [applyCancelRef, hg]
  rcases List.getElem?_eq_some.mp hg with ⟨hlt, _⟩
  exact List.getElem?_set_eq_of_lt _ hlt

/-- Attempts not referenced by the registry are untouched by `cancelAll`. -/
lemma foldl_cancel_not_mem (refs : List (Option Nat)) (h : List AttemptState) (j : Nat)
    (hnm : some j ∉ refs) : (refs.foldl applyCancelRef h)[j]? = h[j]? := by
  induction refs generalizing h with
  | nil => rfl
  | cons r rest ih =>
    have h1 : r ≠ some j := by
      intro he
      exact hnm (by rw [← he]; exact List.mem_cons_self r rest)
    rw [List.foldl_cons, ih _ (fun hm => hnm (List.mem_cons_of_mem r hm)),
      applyCancelRef_get_other h r j h1]

/-- Every live attempt referenced by the registry is canceled by the
`cancelAll` loop. -/
lemma foldl_cancel_mem (refs : List (Option Nat)) (h : List AttemptState) (i : Nat)
    (a : AttemptState) (hm : some i ∈ refs) (hg : h[i]? = some a) :
    (refs.foldl applyCancelRef h)[i]? = some (cancelFn a) := by
  induction refs generalizing h a with
  | nil => cases hm
  | cons r rest ih =>
    rw [List.foldl_cons]
    by_cases hr : r = some i
    · subst hr
      have h2 : (applyCancelRef h (some i))[i]? = some (cancelFn a) :=
        applyCancelRef_get_self h i a hg
      by_cases hm2 : some i ∈ rest
      · rw [ih _ _ hm2 h2, cancelFn_idem]
      · rw [foldl_cancel_not_mem rest _ i hm2, h2]
    · have hm2 : some i ∈ rest := by
        cases List.mem_cons.mp hm with
        | inl he => exact absurd he.symm hr
        | inr hmm => exact hmm
      have hpres : (applyCancelRef h r)[i]? = some a := by
        rw [applyCancelRef_get_other h r i hr]
        exact hg
      exact ih _ _ hm2 hpres

/-- Claim C9: after `cancelAll()`, every attempt that was registered and
still live has been passed through `cancel()` — so every not-yet-settled one
is settled with the canceled error, while already-settled ones keep their
outcome — and the registry is cleared; registration itself adds a reference
exactly when the process-wide flag is enabled. -/
theorem claim9_cancel_all (w : World) (i : Nat) (a : AttemptState)
    (hreg : some i ∈ w.registry) (hget : w.heap[i]? = some a) :
    ((cancelAllW w).heap[i]? = some (cancelFn a)
      ∧ (a.outcome = none → (cancelFn a).outcome = some (.rejected .canceled))
      ∧ (∀ o, a.outcome = some o → (cancelFn a).outcome = some o)
      ∧ (cancelAllW w).registry = [])
    ∧ (∀ s, (registerAttempt w true s).registry = w.registry ++ [some w.heap.length]
      ∧ (registerAttempt w false s).registry = w.registry) := by
  refine ⟨⟨?_, ?_, ?_, rfl⟩, ?_⟩
  · exact foldl_cancel_mem w.registry w.heap i a hreg hget
  · exact cancelFn_outcome_none a
  · exact fun o => cancelFn_outcome_some a o
  · intro s
    exact ⟨rfl, rfl⟩

/-- A concrete world holding one pending attempt, one settled attempt, and
one collected weak reference. -/
def world0 : World :=
  ⟨[attempt0, step env0 attempt0 (.downloadSuccess ⟨7⟩ .complete)], [some 0, some 1, none]⟩

/-- Witness for C9: in the concrete world, `cancelAll` cancels the pending
attempt, leaves the settled attempt's outcome unchanged, and clears the
registry. -/
theorem claim9_cancel_all_witness :
    (cancelAllW world0).heap[0]? = some (cancelFn attempt0)
    ∧ (cancelFn attempt0).outcome = some (.rejected .canceled)
    ∧ (cancelFn (step env0 attempt0 (.downloadSuccess ⟨7⟩ .complete))).outcome
        = some (.resolved ⟨7⟩)
    ∧ (cancelAllW world0).registry = [] :=
  ⟨(claim9_cancel_all world0 0 attempt0 (by decide) (by decide)).1.1,
   (claim9_cancel_all world0 0 attempt0 (by decide) (by decide)).1.2.1 (by decide),
   (claim9_cancel_all world0 1 (step env0 attempt0 (.downloadSuccess ⟨7⟩ .complete))
       (by decide) (by decide)).1.2.2.1 (.resolved ⟨7⟩) (by decide),
   (claim9_cancel_all world0 0 attempt0 (by decide) (by decide)).1.2.2.2⟩

end RealmOpen
